import Mathlib

/-!
Shallow embedding of the scoring and budget-planning core of the
Finance-web repository (src/services/bank_analysis.py and
src/services/budget_planner.py), together with theorems settling the
specification claims about it.

Conventions used throughout:
* Python floats are modelled as exact rationals (`ℚ`); quantities whose
  Python value can be a non-finite float (`inf`/`nan`) are modelled as
  `Option` values with `none` standing for the non-finite case.
* Python `round(x, 2)` (round-half-to-even to two decimals) is modelled
  exactly on `ℚ` by `round2`.
* Python dictionaries with a fixed key set are modelled as structures.
-/

/-- Health status bands shared by both scorers
(`Excellent` / `Good` / `Fair` / `Poor`). -/
inductive Status where
  | excellent
  | good
  | fair
  | poor
deriving DecidableEq, Repr

/-- Sector sentiment classification (`Bullish` / `Neutral` / `Bearish`). -/
inductive Sentiment where
  | bullish
  | neutral
  | bearish
deriving DecidableEq, Repr

/-- Python `round` ties-to-even integer rounding (banker's rounding),
modelled exactly on `ℚ`. -/
def roundHalfEven (q : ℚ) : ℤ :=
  if q - ⌊q⌋ < 1 / 2 then ⌊q⌋
  else if 1 / 2 < q - ⌊q⌋ then ⌊q⌋ + 1
  else if 2 ∣ ⌊q⌋ then ⌊q⌋ else ⌊q⌋ + 1

/-- Python `round(x, 2)`: round to two decimal places, ties to even. -/
def round2 (q : ℚ) : ℚ := (roundHalfEven (q * 100) : ℚ) / 100

lemma roundHalfEven_sub_le (q : ℚ) : |(roundHalfEven q : ℚ) - q| ≤ 1 / 2 := by
  have h0 : ((⌊q⌋ : ℚ)) ≤ q := Int.floor_le q
  have h1 : q < (⌊q⌋ : ℚ) + 1 := Int.lt_floor_add_one q
  unfold roundHalfEven
  split_ifs with hlt hgt hev <;>
    rw [abs_le] <;> constructor <;> push_cast <;> linarith

lemma round2_sub_le (q : ℚ) : |round2 q - q| ≤ 1 / 200 := by
  have h := roundHalfEven_sub_le (q * 100)
  have heq : round2 q - q = ((roundHalfEven (q * 100) : ℚ) - q * 100) / 100 := by
    unfold round2; ring
  rw [heq, abs_div, abs_of_pos (by norm_num : (0:ℚ) < 100)]
  rw [div_le_iff₀ (by norm_num : (0:ℚ) < 100)]
  linarith

/-- Status banding used by `calculate_bank_health_score`
(src/services/bank_analysis.py lines 206-217). -/
def bankHealthStatus (score : ℚ) : Status :=
  if score ≥ 80 then .excellent
  else if score ≥ 60 then .good
  else if score ≥ 40 then .fair
  else .poor

/-- Status colors set alongside the status in both scorers. -/
def statusColor : Status → String
  | .excellent => "green"
  | .good => "blue"
  | .fair => "orange"
  | .poor => "red"

/-- Status banding used by `_calculate_financial_health_score`
(src/services/budget_planner.py lines 398-409); the score there is an
integer accumulator. -/
def financialHealthStatus (score : ℤ) : Status :=
  if score ≥ 80 then .excellent
  else if score ≥ 60 then .good
  else if score ≥ 40 then .fair
  else .poor

/-- Sector sentiment banding from `get_banking_sector_overview`
(src/services/bank_analysis.py lines 266-274). -/
def sectorSentiment (avg : ℚ) : Sentiment :=
  if avg ≥ 70 then .bullish
  else if avg ≥ 50 then .neutral
  else .bearish

/-- C5: both the bank health scorer and the financial-health scorer map a
total score to a status via the identical band table with closed lower
bounds: score ≥ 80 is Excellent (so 80 is Excellent, not Good),
60 ≤ score < 80 is Good (so 79 is Good), 40 ≤ score < 60 is Fair, and
score < 40 is Poor. -/
theorem c5_status_bands :
    (∀ s : ℚ, 80 ≤ s → bankHealthStatus s = .excellent) ∧
    (∀ s : ℚ, 60 ≤ s → s < 80 → bankHealthStatus s = .good) ∧
    (∀ s : ℚ, 40 ≤ s → s < 60 → bankHealthStatus s = .fair) ∧
    (∀ s : ℚ, s < 40 → bankHealthStatus s = .poor) ∧
    (∀ n : ℤ, financialHealthStatus n = bankHealthStatus (n : ℚ)) := by
  refine ⟨?_, ?_, ?_, ?_, ?_⟩
  · intro s h; unfold bankHealthStatus; rw [if_pos (by linarith)]
  · intro s h1 h2; unfold bankHealthStatus
    rw [if_neg (by simpa using h2), if_pos (by linarith)]
  · intro s h1 h2; unfold bankHealthStatus
    rw [if_neg (by simp only [ge_iff_le, not_le]; linarith),
      if_neg (by simpa using h2), if_pos (by linarith)]
  · intro s h; unfold bankHealthStatus
    rw [if_neg (by simp only [ge_iff_le, not_le]; linarith),
      if_neg (by simp only [ge_iff_le, not_le]; linarith),
      if_neg (by simpa using h)]
  · intro n
    unfold financialHealthStatus bankHealthStatus
    have c80 : ((n : ℚ) ≥ 80) ↔ (n ≥ 80) := by exact_mod_cast Iff.rfl
    have c60 : ((n : ℚ) ≥ 60) ↔ (n ≥ 60) := by exact_mod_cast Iff.rfl
    have c40 : ((n : ℚ) ≥ 40) ↔ (n ≥ 40) := by exact_mod_cast Iff.rfl
    by_cases h80 : n ≥ 80
    · rw [if_pos h80, if_pos (c80.mpr h80)]
    · rw [if_neg h80, if_neg (fun hc => h80 (c80.mp hc))]
      by_cases h60 : n ≥ 60
      · rw [if_pos h60, if_pos (c60.mpr h60)]
      · rw [if_neg h60, if_neg (fun hc => h60 (c60.mp hc))]
        by_cases h40 : n ≥ 40
        · rw [if_pos h40, if_pos (c40.mpr h40)]
        · rw [if_neg h40, if_neg (fun hc => h40 (c40.mp hc))]

/-- C5 witness: the band boundaries at concrete scores 80, 79, 60, 59,
40 and 39, in both scorers. -/
theorem c5_status_bands_witness :
    bankHealthStatus 80 = .excellent ∧ bankHealthStatus 79 = .good ∧
    bankHealthStatus 60 = .good ∧ bankHealthStatus 59 = .fair ∧
    bankHealthStatus 40 = .fair ∧ bankHealthStatus 39 = .poor ∧
    financialHealthStatus 80 = .excellent ∧ financialHealthStatus 79 = .good := by
  obtain ⟨h1, h2, h3, h4, h5⟩ := c5_status_bands
  refine ⟨h1 80 (by norm_num), h2 79 (by norm_num) (by norm_num),
    h2 60 (by norm_num) (by norm_num), h3 59 (by norm_num) (by norm_num),
    h3 40 (by norm_num) (by norm_num), h4 39 (by norm_num), ?_, ?_⟩
  · rw [h5 80]; exact h1 80 (by norm_num)
  · rw [h5 79]; exact h2 79 (by norm_num) (by norm_num)

/-- C6: the sector aggregator classifies sentiment from the average score
with avg ≥ 70 Bullish, 50 ≤ avg < 70 Neutral, avg < 50 Bearish (70 is
Bullish, 69.99 Neutral, 50 Neutral, 49.99 Bearish); these thresholds are
distinct from the per-entity status bands (at 75 the sentiment is already
in its top band while the entity status is only Good). -/
theorem c6_sector_sentiment_bands :
    (∀ a : ℚ, 70 ≤ a → sectorSentiment a = .bullish) ∧
    (∀ a : ℚ, 50 ≤ a → a < 70 → sectorSentiment a = .neutral) ∧
    (∀ a : ℚ, a < 50 → sectorSentiment a = .bearish) ∧
    (sectorSentiment 75 = .bullish ∧ bankHealthStatus 75 = .good) := by
  refine ⟨?_, ?_, ?_, ?_, ?_⟩
  · intro a h; unfold sectorSentiment; rw [if_pos (by linarith)]
  · intro a h1 h2; unfold sectorSentiment
    rw [if_neg (by simpa using h2), if_pos (by linarith)]
  · intro a h; unfold sectorSentiment
    rw [if_neg (by simp only [ge_iff_le, not_le]; linarith),
      if_neg (by simpa using h)]
  · unfold sectorSentiment; norm_num
  · unfold bankHealthStatus; norm_num

/-- C6 witness: the sentiment bands evaluated at the concrete averages
70, 69.99, 50 and 49.99. -/
theorem c6_sector_sentiment_witness :
    sectorSentiment 70 = .bullish ∧ sectorSentiment (6999 / 100) = .neutral ∧
    sectorSentiment 50 = .neutral ∧ sectorSentiment (4999 / 100) = .bearish := by
  obtain ⟨h1, h2, h3, _⟩ := c6_sector_sentiment_bands
  exact ⟨h1 70 (by norm_num), h2 (6999 / 100) (by norm_num) (by norm_num),
    h2 50 (by norm_num) (by norm_num), h3 (4999 / 100) (by norm_num)⟩

/-- Input record of `calculate_bank_health_score`: the fields of the
`bank_data` dictionary produced by `get_bank_stock_data` that the scorer
reads. `pe_ratio` and `pb_ratio` are `Option` because the dictionary may
hold the string "N/A" instead of a number (the scorer tests
`isinstance(..., (int, float))`); `market_cap` likewise, noting that the
fetched dictionary always stores it as a string, so a numeric value can
only arrive from other callers. -/
structure BankData where
  price_change_pct : ℚ
  volatility : ℚ
  current_price : ℚ
  ma_20 : ℚ
  ma_50 : ℚ
  pe_ratio : Option ℚ
  pb_ratio : Option ℚ
  dividend_yield : ℚ
  volume : ℤ
  avg_volume : ℤ
  market_cap : Option ℚ
deriving DecidableEq

/-- Price Performance factor (src/services/bank_analysis.py lines 125-129). -/
def pricePoints (d : BankData) : ℚ :=
  if d.price_change_pct > 0 then min 20 (|d.price_change_pct| * 2) else 0

/-- Volatility Assessment factor (lines 132-139). -/
def volatilityPoints (d : BankData) : ℚ :=
  if d.volatility < 20 then 15
  else if d.volatility < 30 then 10
  else 0

/-- Moving Average Analysis factor (lines 142-149). -/
def maPoints (d : BankData) : ℚ :=
  if d.current_price > d.ma_20 ∧ d.ma_20 > d.ma_50 then 15
  else if d.current_price > d.ma_20 then 10
  else 0

/-- P/E part of the Valuation Metrics factor (lines 152-161). -/
def pePoints (d : BankData) : ℚ :=
  match d.pe_ratio with
  | none => 0
  | some pe =>
      if 10 ≤ pe ∧ pe ≤ 20 then 10
      else if pe < 10 then 15
      else 0

/-- P/B part of the Valuation Metrics factor (lines 163-169). -/
def pbPoints (d : BankData) : ℚ :=
  match d.pb_ratio with
  | none => 0
  | some pb => if pb ≤ 2 then 10 else 0

/-- Dividend Analysis factor (lines 174-181). -/
def dividendPoints (d : BankData) : ℚ :=
  if d.dividend_yield > 3 then 10
  else if d.dividend_yield > 1 then 5
  else 0

/-- Volume Analysis factor (lines 184-193); `avg_volume * 1.5` is a float
comparison in the source. -/
def volumePoints (d : BankData) : ℚ :=
  if (d.volume : ℚ) > (d.avg_volume : ℚ) * 1.5 then 10
  else if d.volume > d.avg_volume then 5
  else 0

/-- Market Position factor (lines 196-203); a non-numeric market cap
(`isinstance` failing) contributes 0. -/
def marketCapPoints (d : BankData) : ℚ :=
  match d.market_cap with
  | none => 0
  | some mc =>
      if mc > 100000000000 then 10
      else if mc > 10000000000 then 5
      else 0

/-- Total score accumulated by `calculate_bank_health_score`
(lines 120-203): the eight factor contributions added to the running
`score`. -/
def bankHealthScore (d : BankData) : ℚ :=
  pricePoints d + volatilityPoints d + maPoints d + pePoints d +
    pbPoints d + dividendPoints d + volumePoints d + marketCapPoints d

/-- Investment recommendation text (`_get_recommendation`, lines 228-237). -/
def bankRecommendation (score : ℚ) : String :=
  if score ≥ 80 then "Strong Buy - Excellent financial health and performance"
  else if score ≥ 60 then "Buy - Good fundamentals with potential for growth"
  else if score ≥ 40 then "Hold - Monitor closely, consider reducing exposure"
  else "Sell - Poor performance, consider alternatives"

/-- Result record of `calculate_bank_health_score` (lines 219-226);
the rationale strings of the `analysis` list are presentation-only and
not modelled. -/
structure HealthScoreResult where
  health_score : ℚ
  max_score : ℚ
  status : Status
  status_color : String
  recommendation : String
deriving DecidableEq

/-- `calculate_bank_health_score` (src/services/bank_analysis.py
lines 107-226), on an error-free `bank_data` record. -/
def calculateBankHealthScore (d : BankData) : HealthScoreResult :=
  { health_score := bankHealthScore d
    max_score := 100
    status := bankHealthStatus (bankHealthScore d)
    status_color := statusColor (bankHealthStatus (bankHealthScore d))
    recommendation := bankRecommendation (bankHealthScore d) }

/-- A `DerivedMetrics` input on which every factor of the rubric attains
its maximum: rising price, low volatility, price above both moving
averages, P/E below 10, P/B below 2, dividend yield above 3 percent,
volume 1.5 times above average, market cap above 100B. -/
def maxedBankData : BankData :=
  { price_change_pct := 10
    volatility := 10
    current_price := 100
    ma_20 := 90
    ma_50 := 80
    pe_ratio := some 5
    pb_ratio := some 1
    dividend_yield := 5
    volume := 200
    avg_volume := 100
    market_cap := some 200000000000 }

/-- C1: the per-factor maxima of the rubric are 20, 15, 15, 15, 10, 10,
10 and 10, which sum to 105, not 100, and the total score attains 105 on
`maxedBankData` while the result's own `max_score` field says 100: the
code contradicts its `max_score` and its section comments, which budget
20 points for valuation while P/E alone can contribute 15 and P/B 10. -/
theorem c1_health_score_exceeds_max :
    (calculateBankHealthScore maxedBankData).health_score = 105 ∧
    (calculateBankHealthScore maxedBankData).max_score = 100 ∧
    ¬ (calculateBankHealthScore maxedBankData).health_score ≤ 100 := by
  refine ⟨?_, rfl, ?_⟩
  · show bankHealthScore maxedBankData = 105
    unfold bankHealthScore pricePoints volatilityPoints maPoints pePoints
      pbPoints dividendPoints volumePoints marketCapPoints maxedBankData
    norm_num
  · show ¬ bankHealthScore maxedBankData ≤ 100
    unfold bankHealthScore pricePoints volatilityPoints maPoints pePoints
      pbPoints dividendPoints volumePoints marketCapPoints maxedBankData
    norm_num

/-- Severity levels of the early-warning indicators. -/
inductive WarningLevel where
  | high
  | medium
deriving DecidableEq, Repr

/-- The `average_sector_score` field of the sector overview
(src/services/bank_analysis.py lines 263 and 278): the mean of the
successfully scored banks' health scores, rounded to two decimals for
the stored field. -/
def averageSectorScore (scores : List ℚ) : ℚ :=
  round2 (scores.sum / scores.length)

/-- Warning list built by `get_early_warning_indicators` (lines 302-324)
from the health scores of the successfully scored banks: a High warning
when the sector average is below 50, then a Medium warning when more
than 30 percent of the banks score below 40. -/
def sectorWarnings (scores : List ℚ) : List WarningLevel :=
  (if averageSectorScore scores < 50 then [WarningLevel.high] else []) ++
    (if ((scores.filter (fun s => s < 40)).length : ℚ) >
        (scores.length : ℚ) * 0.3 then [WarningLevel.medium] else [])

/-- C7: the High warning is emitted exactly when the sector's (stored)
average score is below 50, and the Medium warning exactly when strictly
more than 30 percent of the scored entities have a score below 40; the
two checks are independent: both fire on [30,30,30], only Medium on
[100,100,100,30,30] (40 percent of entities below 40), only High on
[45,45] (average 45), and neither on [80,80]. -/
theorem c7_warning_indicators :
    (∀ scores : List ℚ, scores ≠ [] →
      ((WarningLevel.high ∈ sectorWarnings scores ↔
          averageSectorScore scores < 50) ∧
        (WarningLevel.medium ∈ sectorWarnings scores ↔
          ((scores.filter (fun s => s < 40)).length : ℚ) >
            (scores.length : ℚ) * 0.3))) ∧
    sectorWarnings [30, 30, 30] = [.high, .medium] ∧
    sectorWarnings [100, 100, 100, 30, 30] = [.medium] ∧
    sectorWarnings [45, 45] = [.high] ∧
    sectorWarnings [80, 80] = [] := by
  refine ⟨?_, ?_, ?_, ?_, ?_⟩
  · intro scores _
    constructor
    · unfold sectorWarnings
      split_ifs with h1 h2 <;> simp [h1]
    · unfold sectorWarnings
      split_ifs with h1 h2 h3 <;> simp_all
  · unfold sectorWarnings averageSectorScore round2 roundHalfEven
    norm_num
  · unfold sectorWarnings averageSectorScore round2 roundHalfEven
    norm_num
  · unfold sectorWarnings averageSectorScore round2 roundHalfEven
    norm_num
  · unfold sectorWarnings averageSectorScore round2 roundHalfEven
    norm_num

/-- C7 witness: the warning equivalences instantiated on the roster
[30, 30, 30], whose average 30 is below 50 and where all entities score
below 40. -/
theorem c7_warning_indicators_witness :
    ([30, 30, 30] : List ℚ) ≠ [] ∧
    (WarningLevel.high ∈ sectorWarnings [30, 30, 30] ↔
      averageSectorScore [30, 30, 30] < 50) ∧
    (WarningLevel.medium ∈ sectorWarnings [30, 30, 30] ↔
      ((([30, 30, 30] : List ℚ).filter (fun s => s < 40)).length : ℚ) >
        (([30, 30, 30] : List ℚ).length : ℚ) * 0.3) := by
  have h := c7_warning_indicators.1 [30, 30, 30] (by simp)
  exact ⟨by simp, h.1, h.2⟩

/-- One top-level bucket of the budget allocation: the rounded amount,
the percentage, and the rounded sub-bucket breakdown as an association
list. -/
structure BudgetBucket where
  amount : ℚ
  percentage : ℚ
  breakdown : List (String × ℚ)
deriving DecidableEq

/-- The three top-level buckets returned by
`_calculate_budget_allocation`. -/
structure BudgetAllocation where
  essential_expenses : BudgetBucket
  financial_goals : BudgetBucket
  discretionary : BudgetBucket
deriving DecidableEq

/-- `_calculate_budget_allocation` (src/services/budget_planner.py
lines 127-179). The `expenses` and `goals` arguments are unused by the
computation and omitted. Essential expenses take 55 percent for a
conservative risk tolerance and 50 otherwise; financial goals take 25
percent below age 30 and 20 otherwise; discretionary is the remainder of
the unrounded amounts; every stored amount is rounded to two decimals. -/
def calculateBudgetAllocation (income : ℚ) (risk_tolerance : String)
    (age : ℤ) : BudgetAllocation :=
  let essential_percentage : ℚ := if risk_tolerance = "conservative" then 55 else 50
  let essential_amount := income * essential_percentage / 100
  let goals_percentage : ℚ := if age < 30 then 25 else 20
  let goals_amount := income * goals_percentage / 100
  let total_allocated := essential_amount + goals_amount
  let discretionary_amount := income - total_allocated
  let discretionary_percentage := discretionary_amount / income * 100
  { essential_expenses :=
      { amount := round2 essential_amount
        percentage := essential_percentage
        breakdown :=
          [("housing", round2 (essential_amount * 0.55)),
            ("utilities", round2 (essential_amount * 0.18)),
            ("groceries", round2 (essential_amount * 0.27))] }
    financial_goals :=
      { amount := round2 goals_amount
        percentage := goals_percentage
        breakdown :=
          [("emergency_fund", round2 (goals_amount * 0.4)),
            ("savings", round2 (goals_amount * 0.3)),
            ("investments", round2 (goals_amount * 0.3))] }
    discretionary :=
      { amount := round2 discretionary_amount
        percentage := round2 discretionary_percentage
        breakdown :=
          [("entertainment", round2 (discretionary_amount * 0.33)),
            ("dining_out", round2 (discretionary_amount * 0.27)),
            ("shopping", round2 (discretionary_amount * 0.23)),
            ("hobbies", round2 (discretionary_amount * 0.17))] } }

/-- C2 counterexample: at income 1.004 (risk tolerance "moderate", age
30) the three stored amounts are 0.50, 0.20 and 0.30, summing to 1.00,
which differs from the income by 0.004, far beyond the claimed 1e-6
tolerance: each amount is rounded to two decimals before being stored,
so the claimed exact-sum invariant fails. -/
theorem c2_sum_counterexample :
    ¬ |(calculateBudgetAllocation (251 / 250) "moderate" 30).essential_expenses.amount +
        (calculateBudgetAllocation (251 / 250) "moderate" 30).financial_goals.amount +
        (calculateBudgetAllocation (251 / 250) "moderate" 30).discretionary.amount -
        251 / 250| ≤ 1 / 1000000 := by
  have hns : ¬ (("moderate" : String) = "conservative") := by decide
  have he : (calculateBudgetAllocation (251 / 250) "moderate" 30).essential_expenses.amount =
      round2 ((251 / 250) * 50 / 100) := by
    unfold calculateBudgetAllocation; norm_num [hns]
  have hg : (calculateBudgetAllocation (251 / 250) "moderate" 30).financial_goals.amount =
      round2 ((251 / 250) * 20 / 100) := by
    unfold calculateBudgetAllocation; norm_num
  have hd : (calculateBudgetAllocation (251 / 250) "moderate" 30).discretionary.amount =
      round2 ((251 / 250) - ((251 / 250) * 50 / 100 + (251 / 250) * 20 / 100)) := by
    unfold calculateBudgetAllocation; norm_num [hns]
  rw [he, hg, hd]
  unfold round2 roundHalfEven
  norm_num
  rw [abs_of_pos (by norm_num : (0:ℚ) < 1 / 250)]
  norm_num

/-- C2 amended: the three top-level amounts are each rounded to two
decimals, so their sum equals the income only up to three half-cent
rounding errors: for every income, risk tolerance and age the absolute
deviation is at most 0.015 (and the unrounded amounts sum exactly, since
discretionary is computed as the remainder). -/
theorem c2_amended_sum_within_rounding (income : ℚ) (risk_tolerance : String)
    (age : ℤ) (_h : 0 < income) :
    |(calculateBudgetAllocation income risk_tolerance age).essential_expenses.amount +
        (calculateBudgetAllocation income risk_tolerance age).financial_goals.amount +
        (calculateBudgetAllocation income risk_tolerance age).discretionary.amount -
        income| ≤ 3 / 200 := by
  have he : (calculateBudgetAllocation income risk_tolerance age).essential_expenses.amount =
      round2 (income * (if risk_tolerance = "conservative" then (55:ℚ) else 50) / 100) := rfl
  have hg : (calculateBudgetAllocation income risk_tolerance age).financial_goals.amount =
      round2 (income * (if age < 30 then (25:ℚ) else 20) / 100) := rfl
  have hd : (calculateBudgetAllocation income risk_tolerance age).discretionary.amount =
      round2 (income -
        (income * (if risk_tolerance = "conservative" then (55:ℚ) else 50) / 100 +
          income * (if age < 30 then (25:ℚ) else 20) / 100)) := rfl
  rw [he, hg, hd]
  set x := income * (if risk_tolerance = "conservative" then (55:ℚ) else 50) / 100 with hx
  set y := income * (if age < 30 then (25:ℚ) else 20) / 100 with hy
  set z := income - (x + y) with hz
  have hsum : x + y + z = income := by rw [hz]; ring
  have h1 := round2_sub_le x
  have h2 := round2_sub_le y
  have h3 := round2_sub_le z
  have : round2 x + round2 y + round2 z - income =
      (round2 x - x) + (round2 y - y) + (round2 z - z) := by
    rw [← hsum]; ring
  rw [this]
  calc |(round2 x - x) + (round2 y - y) + (round2 z - z)|
      ≤ |(round2 x - x) + (round2 y - y)| + |round2 z - z| := abs_add _ _
    _ ≤ |round2 x - x| + |round2 y - y| + |round2 z - z| := by
        have := abs_add (round2 x - x) (round2 y - y); linarith
    _ ≤ 3 / 200 := by linarith

/-- C2 amended witness: at income 1, risk tolerance "moderate", age 30
the deviation of the summed amounts from the income is within 0.015. -/
theorem c2_amended_witness :
    (0:ℚ) < 1 ∧
    |(calculateBudgetAllocation 1 "moderate" 30).essential_expenses.amount +
        (calculateBudgetAllocation 1 "moderate" 30).financial_goals.amount +
        (calculateBudgetAllocation 1 "moderate" 30).discretionary.amount -
        1| ≤ 3 / 200 :=
  ⟨by norm_num, c2_amended_sum_within_rounding 1 "moderate" 30 (by norm_num)⟩

/-- One entry of the 52-week challenge breakdown: the dictionary
`{"week": w, "amount": w, "cumulative": sum(range(1, w + 1))}`. -/
structure WeekEntry where
  week : ℕ
  amount : ℕ
  cumulative : ℕ
deriving DecidableEq, Repr

/-- Python `range(a, b)` as a list of naturals. -/
def pyRange (a b : ℕ) : List ℕ := (List.range (b - a)).map (a + ·)

/-- `_generate_52_week_breakdown` (src/services/budget_planner.py
lines 306-316): for each week in `range(1, 53)` the saved amount is the
week number and the cumulative amount is `sum(range(1, week + 1))`. -/
def generate52WeekBreakdown : List WeekEntry :=
  (pyRange 1 53).map fun week =>
    { week := week, amount := week, cumulative := (pyRange 1 (week + 1)).sum }

/-- One savings challenge dictionary from `_create_savings_challenges`;
keys absent from a given challenge are modelled as `none` or `[]`. -/
structure SavingsChallenge where
  challenge_id : String
  name : String
  description : String
  total_savings : Option ℕ
  potential_savings : Option ℚ
  duration : String
  weekly_breakdown : List WeekEntry
  rules : List String
  how_it_works : List String
  difficulty : String
  suitable_for : String
deriving DecidableEq, Repr

/-- `_create_savings_challenges` (src/services/budget_planner.py
lines 254-304): the 52-week challenge with its fixed 1378 total and
generated breakdown, the no-spend challenge at a quarter of income, and
the round-up challenge at five percent of income. -/
def createSavingsChallenges (income : ℚ) : List SavingsChallenge :=
  [{ challenge_id := "52_week"
     name := "52-Week Savings Challenge"
     description := "Save ₹1 in week 1, ₹2 in week 2, and so on"
     total_savings := some 1378
     potential_savings := none
     duration := "52 weeks"
     weekly_breakdown := generate52WeekBreakdown
     rules := []
     how_it_works := []
     difficulty := "Easy"
     suitable_for := "Beginners" },
   { challenge_id := "no_spend"
     name := "30-Day No-Spend Challenge"
     description := "Avoid non-essential spending for 30 days"
     total_savings := none
     potential_savings := some (round2 (income * 0.25))
     duration := "30 days"
     weekly_breakdown := []
     rules := ["Only spend on essential items", "No dining out or entertainment",
       "No impulse purchases", "Track all spending"]
     how_it_works := []
     difficulty := "Hard"
     suitable_for := "Advanced" },
   { challenge_id := "round_up"
     name := "Round-Up Challenge"
     description := "Round up all purchases to nearest ₹10 and save the difference"
     total_savings := none
     potential_savings := some (round2 (income * 0.05))
     duration := "Ongoing"
     weekly_breakdown := []
     rules := []
     how_it_works := ["Purchase: ₹247 → Save ₹3", "Purchase: ₹1,156 → Save ₹4",
       "Automate with banking apps"]
     difficulty := "Easy"
     suitable_for := "Everyone" }]

lemma pyRange_one_sum (n : ℕ) : (pyRange 1 (n + 1)).sum * 2 = n * (n + 1) := by
  induction n with
  | zero => simp [pyRange]
  | succ m ih =>
      have hstep : pyRange 1 (m + 2) = pyRange 1 (m + 1) ++ [m + 1] := by
        unfold pyRange
        rw [show m + 2 - 1 = (m + 1 - 1) + 1 by omega, List.range_succ, List.map_append]
        simp [Nat.add_comm]
      rw [hstep, List.sum_append]
      simp only [List.sum_cons, List.sum_nil]
      ring_nf
      ring_nf at ih
      omega

/-- C8: in the generated 52-week breakdown, the entry for week k (for
every k in 1..52) has cumulative amount k(k+1)/2; the final entry's
cumulative amount is 1378; and the challenge list stores the 52-week
challenge with total 1378 and this same breakdown for every income. -/
theorem c8_52_week_breakdown :
    (∀ k : ℕ, 1 ≤ k → k ≤ 52 →
      ∃ e : WeekEntry, generate52WeekBreakdown[k - 1]? = some e ∧
        e.week = k ∧ e.cumulative = k * (k + 1) / 2) ∧
    (∃ e : WeekEntry, generate52WeekBreakdown[51]? = some e ∧
      e.cumulative = 1378) ∧
    (∀ income : ℚ, ∃ c : SavingsChallenge,
      (createSavingsChallenges income).head? = some c ∧
        c.total_savings = some 1378 ∧
        c.weekly_breakdown = generate52WeekBreakdown) := by
  have hmain : ∀ k : ℕ, 1 ≤ k → k ≤ 52 →
      ∃ e : WeekEntry, generate52WeekBreakdown[k - 1]? = some e ∧
        e.week = k ∧ e.cumulative = k * (k + 1) / 2 := by
    intro k hk1 hk52
    have hr : (pyRange 1 53)[k - 1]? = some k := by
      unfold pyRange
      rw [List.getElem?_map, List.getElem?_range (by omega : k - 1 < 53 - 1)]
      show some (1 + (k - 1)) = some k
      congr 1
      omega
    refine ⟨{ week := k, amount := k, cumulative := (pyRange 1 (k + 1)).sum }, ?_, rfl, ?_⟩
    · unfold generate52WeekBreakdown
      rw [List.getElem?_map, hr]
      rfl
    · show (pyRange 1 (k + 1)).sum = k * (k + 1) / 2
      have h2 := pyRange_one_sum k
      omega
  refine ⟨hmain, ?_, ?_⟩
  · obtain ⟨e, he, _, hc⟩ := hmain 52 (by norm_num) (by norm_num)
    exact ⟨e, he, by rw [hc]⟩
  · intro income
    exact ⟨_, rfl, rfl, rfl⟩

/-- C8 witness: the closed-form cumulative instantiated at week 52,
whose entry exists and carries cumulative 52 * 53 / 2 = 1378. -/
theorem c8_52_week_witness :
    ∃ e : WeekEntry, generate52WeekBreakdown[52 - 1]? = some e ∧
      e.week = 52 ∧ e.cumulative = 52 * (52 + 1) / 2 :=
  c8_52_week_breakdown.1 52 (by norm_num) (by norm_num)

/-- The `current_expenses` dictionary as read by the financial-health
scorer: `expenses.get(key, 0)` for the three keys it uses. -/
structure Expenses where
  savings : ℚ
  debt_payments : ℚ
  emergency_fund : ℚ
deriving DecidableEq

/-- The `user_data` dictionary as read by
`_calculate_financial_health_score`. -/
structure UserData where
  monthly_income : ℚ
  current_expenses : Expenses
  financial_goals : List String
deriving DecidableEq

/-- Income Factor of the financial-health scorer
(src/services/budget_planner.py lines 330-340). -/
def fhIncomePoints (income : ℚ) : ℤ :=
  if income > 50000 then 20
  else if income > 30000 then 15
  else if income > 15000 then 10
  else 0

/-- Savings rate `(savings / income) * 100 if income > 0 else 0`
(line 344). -/
def fhSavingsRate (income savings : ℚ) : ℚ :=
  if income > 0 then savings / income * 100 else 0

/-- Savings Rate factor tiers (lines 346-356). -/
def fhSavingsPoints (rate : ℚ) : ℤ :=
  if rate ≥ 20 then 25
  else if rate ≥ 15 then 20
  else if rate ≥ 10 then 15
  else 0

/-- Debt ratio `(debt_payments / income) * 100 if income > 0 else 0`
(line 360). -/
def fhDebtRatio (income debt_payments : ℚ) : ℚ :=
  if income > 0 then debt_payments / income * 100 else 0

/-- Debt Management factor tiers (lines 362-372); lower ratio is
better, so the first tier awards the maximum 20 points. -/
def fhDebtPoints (ratio : ℚ) : ℤ :=
  if ratio ≤ 10 then 20
  else if ratio ≤ 20 then 15
  else if ratio ≤ 30 then 10
  else 0

/-- Financial Goals factor (lines 375-382). -/
def fhGoalsPoints (goals : List String) : ℤ :=
  if goals.length ≥ 3 then 20
  else if goals.length ≥ 1 then 15
  else 0

/-- Emergency-fund coverage `emergency_fund / income if income > 0 else 0`
in months (line 386). -/
def fhEmergencyMonths (income emergency_fund : ℚ) : ℚ :=
  if income > 0 then emergency_fund / income else 0

/-- Emergency Fund factor tiers (lines 388-395). -/
def fhEmergencyPoints (months : ℚ) : ℤ :=
  if months ≥ 6 then 15
  else if months ≥ 3 then 10
  else 0

/-- Total score accumulated by `_calculate_financial_health_score`
(src/services/budget_planner.py lines 318-395). -/
def financialHealthScore (u : UserData) : ℤ :=
  fhIncomePoints u.monthly_income +
    fhSavingsPoints (fhSavingsRate u.monthly_income u.current_expenses.savings) +
    fhDebtPoints (fhDebtRatio u.monthly_income u.current_expenses.debt_payments) +
    fhGoalsPoints u.financial_goals +
    fhEmergencyPoints (fhEmergencyMonths u.monthly_income u.current_expenses.emergency_fund)

/-- Health recommendation text (`_get_health_recommendation`,
lines 420-429). -/
def fhRecommendation (score : ℤ) : String :=
  if score ≥ 80 then "Excellent financial health! Focus on wealth building and advanced strategies."
  else if score ≥ 60 then "Good financial health. Continue building emergency fund and increasing savings."
  else if score ≥ 40 then "Fair financial health. Prioritize debt reduction and emergency fund building."
  else "Poor financial health. Focus on basic budgeting and debt management first."

/-- Result record of `_calculate_financial_health_score`
(lines 411-418); the `factors` strings are presentation-only and not
modelled. -/
structure FinancialHealthResult where
  score : ℤ
  max_score : ℤ
  status : Status
  status_color : String
  recommendation : String
deriving DecidableEq

/-- `_calculate_financial_health_score` assembled result. -/
def calculateFinancialHealthScore (u : UserData) : FinancialHealthResult :=
  { score := financialHealthScore u
    max_score := 100
    status := financialHealthStatus (financialHealthScore u)
    status_color := statusColor (financialHealthStatus (financialHealthScore u))
    recommendation := fhRecommendation (financialHealthScore u) }

/-- C9 counterexample: with income 0 and debt payments 1000 the debt
ratio is produced as 0 percent, which falls in the rubric's best band
and contributes 20 points — the maximum, not the lowest tier's 0
points — so the whole score at income 0 with no goals is 20, not 0. -/
theorem c9_debt_factor_counterexample :
    fhDebtPoints (fhDebtRatio 0 1000) = 20 ∧
    fhDebtPoints (fhDebtRatio 0 1000) ≠ 0 ∧
    financialHealthScore
      { monthly_income := 0
        current_expenses :=
          { savings := 1000, debt_payments := 1000, emergency_fund := 1000 }
        financial_goals := [] } = 20 := by
  refine ⟨?_, ?_, ?_⟩ <;> decide

/-- C9 amended: calling the financial-health scorer with income 0 raises
no division error — every ratio (savings rate, debt ratio,
emergency-fund months) is produced as 0 because the division is
guarded — and at 0 the savings-rate and emergency-fund factors land in
their lowest tier (0 points) while the inverted debt-ratio factor lands
in its best tier (20 points); the total at income 0 is therefore the
goals factor plus 20. -/
theorem c9_amended_income_zero (savings debt_payments emergency_fund : ℚ)
    (goals : List String) :
    fhSavingsRate 0 savings = 0 ∧
    fhDebtRatio 0 debt_payments = 0 ∧
    fhEmergencyMonths 0 emergency_fund = 0 ∧
    fhSavingsPoints (fhSavingsRate 0 savings) = 0 ∧
    fhDebtPoints (fhDebtRatio 0 debt_payments) = 20 ∧
    fhEmergencyPoints (fhEmergencyMonths 0 emergency_fund) = 0 ∧
    financialHealthScore
      { monthly_income := 0
        current_expenses :=
          { savings := savings, debt_payments := debt_payments,
            emergency_fund := emergency_fund }
        financial_goals := goals } = fhGoalsPoints goals + 20 := by
  have hr : fhSavingsRate 0 savings = 0 := by unfold fhSavingsRate; norm_num
  have hd : fhDebtRatio 0 debt_payments = 0 := by unfold fhDebtRatio; norm_num
  have he : fhEmergencyMonths 0 emergency_fund = 0 := by
    unfold fhEmergencyMonths; norm_num
  refine ⟨hr, hd, he, ?_, ?_, ?_, ?_⟩
  · rw [hr]; decide
  · rw [hd]; decide
  · rw [he]; decide
  · unfold financialHealthScore
    simp only
    rw [hr, hd, he]
    unfold fhIncomePoints fhSavingsPoints fhDebtPoints fhEmergencyPoints
    norm_num
    ring

/-- One savings tip dictionary from `get_savings_tips`. -/
structure SavingsTip where
  title : String
  tip : String
  difficulty : String
  impact : String
deriving DecidableEq, Repr

/-- A Python `KeyError` raised by a failed dictionary subscript. -/
inductive PyError where
  | keyError (key : String)
deriving DecidableEq, Repr

/-- The `tips` table of `get_savings_tips`
(src/services/budget_planner.py lines 434-495): it has exactly the keys
"beginner", "intermediate" and "advanced" — no "general" entry. -/
def savingsTipsTable : List (String × List SavingsTip) :=
  [("beginner",
    [{ title := "Start Small",
       tip := "Begin with saving just ₹100 per day. It adds up to ₹36,500 per year!",
       difficulty := "Easy", impact := "High" },
     { title := "Use the 50/30/20 Rule",
       tip := "50% for needs, 30% for wants, 20% for savings",
       difficulty := "Easy", impact := "High" },
     { title := "Track Every Rupee",
       tip := "Use apps to track all expenses. Awareness leads to better decisions.",
       difficulty := "Easy", impact := "Medium" }]),
   ("intermediate",
    [{ title := "Automate Savings",
       tip := "Set up automatic transfers to savings account on payday",
       difficulty := "Easy", impact := "High" },
     { title := "Cut Subscriptions",
       tip := "Review and cancel unused subscriptions. Save ₹500-2000 monthly.",
       difficulty := "Medium", impact := "Medium" },
     { title := "Meal Planning",
       tip := "Plan meals weekly to reduce food waste and dining out costs",
       difficulty := "Medium", impact := "High" }]),
   ("advanced",
    [{ title := "Side Hustle",
       tip := "Start a side business or freelance work for extra income",
       difficulty := "Hard", impact := "Very High" },
     { title := "Invest Wisely",
       tip := "Start SIP in mutual funds for long-term wealth building",
       difficulty := "Medium", impact := "Very High" },
     { title := "Negotiate Bills",
       tip := "Negotiate with service providers for better rates",
       difficulty := "Hard", impact := "Medium" }])]

/-- Dictionary subscript lookup in the tips table. -/
def tipsLookup (key : String) : Option (List SavingsTip) :=
  (savingsTipsTable.find? (fun p => p.1 = key)).map (fun p => p.2)

/-- `get_savings_tips` (src/services/budget_planner.py lines 431-497):
`return tips.get(user_profile, tips["general"])`. Python evaluates the
fallback argument `tips["general"]` before `dict.get` runs, so the
subscript is executed on every call; since the table has no "general"
key it raises `KeyError("general")`. -/
def getSavingsTips (user_profile : String) : Except PyError (List SavingsTip) :=
  match tipsLookup "general" with
  | none => .error (.keyError "general")
  | some dflt => .ok ((tipsLookup user_profile).getD dflt)

/-- C10: for every profile string other than "beginner", "intermediate"
and "advanced" — including the default "general" — `get_savings_tips`
fails with a key-lookup error rather than returning a tip list, because
the eagerly evaluated fallback `tips["general"]` dereferences a key that
does not exist in the table. -/
theorem c10_savings_tips_key_error (profile : String)
    (_h1 : profile ≠ "beginner") (_h2 : profile ≠ "intermediate")
    (_h3 : profile ≠ "advanced") :
    getSavingsTips profile = .error (.keyError "general") := by
  unfold getSavingsTips
  have : tipsLookup "general" = none := by decide
  rw [this]

/-- C10 witness: the default profile "general" itself hits the
key-lookup error. -/
theorem c10_savings_tips_witness :
    getSavingsTips "general" = .error (.keyError "general") :=
  c10_savings_tips_key_error "general" (by decide) (by decide) (by decide)

/-- One daily bar of the fetched price history; only the columns read by
`get_bank_stock_data` are modelled. -/
structure Bar where
  close : ℚ
  high : ℚ
  low : ℚ
  volume : ℤ
deriving DecidableEq, Repr

/-- The optional supplier metadata read from `ticker.info`. -/
structure TickerInfo where
  trailingPE : Option ℚ
  priceToBook : Option ℚ
  dividendYield : Option ℚ
  marketCap : Option ℤ
deriving DecidableEq, Repr

/-- Error outcomes of `get_bank_stock_data`: the bank missing from the
roster, an empty history, and the broad `except Exception` handler that
converts any raised exception (such as the `IndexError` of `iloc[-2]` on
a one-bar series or the `ValueError` of `int(nan)`) into a generic
failure payload. -/
inductive FetchError where
  | notFound
  | noData
  | fetchFailed
deriving DecidableEq, Repr

/-- Maximum of a list of rationals (pandas `.max()` on a non-empty
column). -/
def listMax : List ℚ → ℚ
  | [] => 0
  | x :: xs => xs.foldl max x

/-- Minimum of a list of rationals (pandas `.min()` on a non-empty
column). -/
def listMin : List ℚ → ℚ
  | [] => 0
  | x :: xs => xs.foldl min x

/-- Python `int(...)` on a finite float: truncation toward zero. -/
def pyTrunc (q : ℚ) : ℤ := if 0 ≤ q then ⌊q⌋ else ⌈q⌉

/-- `series.rolling(window=w).mean().iloc[-1]`: the mean of the last `w`
entries, or NaN (`none`) if fewer than `w` entries exist
(`min_periods` defaults to the window size). -/
def rollingMeanLast (w : ℕ) (xs : List ℚ) : Option ℚ :=
  if w ≤ xs.length then some ((xs.drop (xs.length - w)).sum / w) else none

/-- `hist_data['Close'].iloc[-1]`. -/
def lastClose (bars : List Bar) : ℚ := (bars.map Bar.close).getLastD 0

/-- `hist_data['Close'].iloc[-2]` (the second-to-last close). -/
def prevClose (bars : List Bar) : ℚ := ((bars.map Bar.close).dropLast).getLastD 0

/-- `close.pct_change().dropna()`: one entry per consecutive pair of
closes. A previous close of 0 makes the float result non-finite:
`0/0` is NaN, dropped by `dropna` (outer `none`); `c/0` with `c ≠ 0` is
an infinity, kept by `dropna` but non-finite (a kept `some none`); a
nonzero previous close gives the finite return `c / p - 1`
(`some (some _)`). -/
def pctChangeKept (closes : List ℚ) : List (Option ℚ) :=
  (closes.zip closes.tail).filterMap fun pc =>
    if pc.1 = 0 then (if pc.2 = 0 then none else some none)
    else some (some (pc.2 / pc.1 - 1))

/-- pandas `Series.std()` with its default `ddof = 1`: NaN (`none`) when
fewer than two entries exist (division by `n - 1 = 0`) or when any entry
is non-finite; otherwise the square root of the sample variance. -/
noncomputable def sampleStd (xs : List (Option ℚ)) : Option ℝ :=
  if 2 ≤ xs.length ∧ ∀ x ∈ xs, x.isSome then
    let rs := xs.filterMap id
    let mean : ℚ := rs.sum / rs.length
    some (Real.sqrt ((rs.map fun r => ((r - mean : ℚ) : ℝ) ^ 2).sum /
      ((rs.length : ℝ) - 1)))
  else none

/-- `returns.std() * np.sqrt(252) * 100` (annualized volatility,
src/services/bank_analysis.py lines 77-78); NaN propagates through the
multiplications. -/
noncomputable def volatilityAnnualized (closes : List ℚ) : Option ℝ :=
  (sampleStd (pctChangeKept closes)).map fun s => s * Real.sqrt 252 * 100

/-- Ties-to-even rounding on a real number, for `round(x, 2)` applied to
the (possibly irrational) volatility value. -/
noncomputable def roundHalfEvenReal (x : ℝ) : ℤ :=
  if x - ⌊x⌋ < 1 / 2 then ⌊x⌋
  else if 1 / 2 < x - ⌊x⌋ then ⌊x⌋ + 1
  else if 2 ∣ ⌊x⌋ then ⌊x⌋ else ⌊x⌋ + 1

/-- `round(x, 2)` on a real number. -/
noncomputable def round2Real (x : ℝ) : ℝ := (roundHalfEvenReal (x * 100) : ℝ) / 100

/-- The dictionary returned by `get_bank_stock_data` on success
(src/services/bank_analysis.py lines 84-101). `price_change_pct` is
`none` when the float value is non-finite (zero previous close);
`volatility` is `none` when the float value is NaN; `ma_20`/`ma_50` are
`none` when the rolling window is not full (NaN survives `round`);
`market_cap` is always stored as a string (`str(...)`); `pe_ratio` and
`pb_ratio` are `none` when absent or zero (falsy), mirroring the
`'N/A'` sentinel. -/
structure StockMetrics where
  current_price : ℚ
  price_change : ℚ
  price_change_pct : Option ℚ
  volatility : Option ℝ
  ma_20 : Option ℚ
  ma_50 : Option ℚ
  market_cap : String
  volume : ℤ
  avg_volume : ℤ
  high_52w : ℚ
  low_52w : ℚ
  pe_ratio : Option ℚ
  pb_ratio : Option ℚ
  dividend_yield : ℚ

/-- Metric-computation core of `get_bank_stock_data`
(src/services/bank_analysis.py lines 47-105), given the fetched history
and metadata (roster lookup and the network fetch are external I-O and
not modelled). An empty history returns the no-data error; a one-bar
history raises `IndexError` at `iloc[-2]`, caught by the broad handler;
a history shorter than 20 bars makes the 20-bar rolling volume mean NaN,
so `int(...)` raises `ValueError`, also caught by the broad handler. -/
noncomputable def normalizeStockData (bars : List Bar) (info : TickerInfo) :
    Except FetchError StockMetrics :=
  if bars = [] then .error .noData
  else if bars.length < 2 then .error .fetchFailed
  else
    match rollingMeanLast 20 (bars.map fun b => (b.volume : ℚ)) with
    | none => .error .fetchFailed
    | some avgVol =>
        .ok
          { current_price := round2 (lastClose bars)
            price_change := round2 (lastClose bars - prevClose bars)
            price_change_pct :=
              if prevClose bars = 0 then none
              else some (round2 ((lastClose bars - prevClose bars) / prevClose bars * 100))
            volatility := (volatilityAnnualized (bars.map Bar.close)).map round2Real
            ma_20 := (rollingMeanLast 20 (bars.map Bar.close)).map round2
            ma_50 := (rollingMeanLast 50 (bars.map Bar.close)).map round2
            market_cap :=
              match info.marketCap with
              | some n => toString n
              | none => "N/A"
            volume := (bars.map Bar.volume).getLastD 0
            avg_volume := pyTrunc avgVol
            high_52w := listMax (bars.map Bar.high)
            low_52w := listMin (bars.map Bar.low)
            pe_ratio :=
              match info.trailingPE with
              | some x => if x = 0 then none else some x
              | none => none
            pb_ratio :=
              match info.priceToBook with
              | some x => if x = 0 then none else some x
              | none => none
            dividend_yield :=
              match info.dividendYield with
              | some x => if x = 0 then 0 else x * 100
              | none => 0 }

/-- The `price_change_pct` field of a successful normalization, or
`none` when the normalizer failed. -/
def pctOfResult : Except FetchError StockMetrics → Option (Option ℚ)
  | .ok m => some m.price_change_pct
  | .error _ => none

/-- Metadata record with every optional field absent. -/
def emptyInfo : TickerInfo :=
  { trailingPE := none, priceToBook := none, dividendYield := none,
    marketCap := none }

/-- A two-bar history with equal close prices. -/
def twoEqualBars : List Bar :=
  [{ close := 5, high := 6, low := 4, volume := 100 },
   { close := 5, high := 6, low := 4, volume := 100 }]

/-- C3 counterexample: on a two-bar series with equal closes the
normalizer does not produce volatility 0 — it fails outright with the
generic fetch error (the 20-bar rolling volume mean is NaN and
`int(nan)` raises), and even the internally computed annualized
volatility is NaN (`none`), because pandas `std()` with `ddof = 1` of a
single return is NaN. -/
theorem c3_two_bar_counterexample :
    normalizeStockData twoEqualBars emptyInfo = .error .fetchFailed ∧
    volatilityAnnualized [(5 : ℚ), 5] = none := by
  constructor
  · unfold normalizeStockData twoEqualBars
    have h1 : ¬(([{ close := (5:ℚ), high := 6, low := 4, volume := (100:ℤ) },
        { close := 5, high := 6, low := 4, volume := 100 }] : List Bar) = []) := by
      simp
    rw [if_neg h1]
    norm_num
    rfl
  · unfold volatilityAnnualized sampleStd pctChangeKept
    have hc : ¬((5 : ℚ) = 0) := by norm_num
    simp [hc]

/-- C3 amended: for every two-bar series — any two bars whatsoever,
equal closes or not — the normalizer fails with the generic fetch error
rather than producing a result, and the internally computed annualized
volatility of two equal closes is NaN (`none`), not 0: the sample
standard deviation (`ddof = 1`) of the single available return does not
exist, and the short series additionally breaks the 20-bar rolling
volume average. -/
theorem c3_amended_two_bars (b1 b2 : Bar) (info : TickerInfo) (c : ℚ) :
    normalizeStockData [b1, b2] info = .error .fetchFailed ∧
    volatilityAnnualized [c, c] = none := by
  constructor
  · unfold normalizeStockData
    have h1 : ¬(([b1, b2] : List Bar) = []) := by simp
    rw [if_neg h1]
    have h2 : ¬(([b1, b2] : List Bar).length < 2) := by simp
    rw [if_neg h2]
    have h3 : rollingMeanLast 20
        (([b1, b2] : List Bar).map fun b => (b.volume : ℚ)) = none := by
      unfold rollingMeanLast
      simp
    rw [h3]
  · unfold volatilityAnnualized sampleStd pctChangeKept
    by_cases hc : c = 0 <;> simp [hc]

/-- A 20-bar history whose second-to-last close is 0: 18 bars at close
1, then close 0, then close 5. -/
def zeroPrevCloseBars : List Bar :=
  List.replicate 18 { close := 1, high := 1, low := 1, volume := 100 } ++
    [{ close := 0, high := 1, low := 0, volume := 100 },
     { close := 5, high := 5, low := 0, volume := 100 }]

/-- C4 counterexample: on a 20-bar series whose second-to-last close is
0 the normalizer does not fail at all — there is no zero-close guard in
the code, and float division by zero raises no exception — so the claim
that it fails with InsufficientData is false. -/
theorem c4_zero_close_no_error :
    (normalizeStockData zeroPrevCloseBars emptyInfo).isOk = true := by
  rfl

/-- C4 amended: for every history of at least 20 bars whose
second-to-last close is 0, the normalizer succeeds (no InsufficientData
or division error), and the produced `price_change_pct` is the
non-finite float resulting from division by zero (`none`). -/
theorem c4_amended_zero_prev_close (bars : List Bar) (info : TickerInfo)
    (h20 : 20 ≤ bars.length) (h0 : prevClose bars = 0) :
    pctOfResult (normalizeStockData bars info) = some none := by
  unfold normalizeStockData
  have h1 : ¬(bars = []) := by
    intro h
    rw [h] at h20
    simp at h20
  rw [if_neg h1]
  have h2 : ¬(bars.length < 2) := by omega
  rw [if_neg h2]
  have h3 : rollingMeanLast 20 (bars.map fun b => (b.volume : ℚ)) =
      some (((bars.map fun b => (b.volume : ℚ)).drop
        ((bars.map fun b => (b.volume : ℚ)).length - 20)).sum / 20) := by
    unfold rollingMeanLast
    rw [if_pos (by simpa using h20)]
    norm_cast
  rw [h3]
  simp [pctOfResult, h0]

/-- C4 amended witness: the concrete 20-bar series with zero
second-to-last close succeeds with a non-finite percentage change. -/
theorem c4_amended_witness :
    pctOfResult (normalizeStockData zeroPrevCloseBars emptyInfo) = some none :=
  c4_amended_zero_prev_close zeroPrevCloseBars emptyInfo (by decide) (by decide)
